import Mathlib

/-!
Verification of the Deep-action-agent core against its specification.

Shallow embedding of the LLM provider router (`src/llm_providers/provider_handler.py`),
the manager agent's iterative loop and tool dispatcher (`src/agents/manager_agent.py`),
and the task monitor (`src/tools/task_monitor.py`). Network calls, clocks and file
writes are modelled as oracles or explicit parameters; everything else is translated
directly from the Python source.
-/

set_option autoImplicit false

/-- Prefix test on character lists (structural, so the kernel can evaluate
it on literals). -/
def isPrefixChars : List Char → List Char → Bool
  | [], _ => true
  | _ :: _, [] => false
  | c :: cs, d :: ds => (c == d) && isPrefixChars cs ds

/-- Substring search on character lists. -/
def containsSub (pat : List Char) : List Char → Bool
  | [] => pat.isEmpty
  | d :: ds => isPrefixChars pat (d :: ds) || containsSub pat ds

/-- Substring containment, the Lean counterpart of the Python expression
`pat in s` on strings; an empty pattern is contained in every string.
Implemented over the character lists so proofs can evaluate it. -/
def strContains (s pat : String) : Bool :=
  containsSub pat.data s.data

/-- Python `str.lower()` (ASCII-faithful), over the character list. -/
def lowerStr (s : String) : String := ⟨s.data.map Char.toLower⟩

/-- Python `str.upper()` (ASCII-faithful), over the character list. -/
def upperStr (s : String) : String := ⟨s.data.map Char.toUpper⟩

/-- Python `s[:n]` slicing on strings, over the character list. -/
def takeStr (s : String) (n : Nat) : String := ⟨s.data.take n⟩

/-- Python `str.strip()`: drop leading and trailing whitespace. -/
def trimStr (s : String) : String :=
  ⟨((s.data.dropWhile Char.isWhitespace).reverse.dropWhile Char.isWhitespace).reverse⟩

/-- Python `str.startswith(pre)`. -/
def startsWithStr (s pre : String) : Bool := isPrefixChars pre.data s.data

/-- The two configured LLM providers of `provider_handler.py`. -/
inductive Provider
  | openrouter
  | gemini
deriving DecidableEq, Repr

/-- Fallback provider selection, `provider_handler.py` line 376:
`fallback_provider = 'gemini' if provider == 'openrouter' else 'openrouter'`. -/
def Provider.other : Provider → Provider
  | .openrouter => .gemini
  | .gemini => .openrouter

/-- A Python exception as seen by `call_llm`'s retry loop: `isRateLimit` models
`hasattr(e, 'response') and e.response and e.response.status_code == 429`
(line 368), `msg` identifies the exception. -/
structure Err where
  isRateLimit : Bool
  msg : String
deriving DecidableEq, Repr

/-- Outcome of the `for attempt in range(max_retries)` loop of `call_llm`
(lines 354-373): `result` is the returned response if an attempt succeeded,
`lastExc` is the Python `last_exception` variable, `sleeps` lists the
`time.sleep(2 ** attempt)` durations performed, `attempts` counts adapter
invocations. -/
structure RetryOut (ρ : Type) where
  result : Option ρ
  lastExc : Option Err
  sleeps : List Nat
  attempts : Nat
deriving Repr

/-- Shallow embedding of the retry loop of `call_llm` (`provider_handler.py`
lines 352-373). `invoke p i` is the adapter call (`_call_openrouter` /
`_call_gemini`) where `i` is a global invocation counter so a stubbed provider
can vary per attempt. The first `Nat` argument is the number of attempts left
(`max_retries - attempt`), the second the current `attempt` index, the third
the invocation counter; the returned `Nat` is the updated counter. On success
the loop returns at once; on a 429 exception it breaks with no sleep; on any
other exception it sleeps `2 ^ attempt` seconds unless this was the final
attempt (`if attempt < max_retries - 1`), then retries. -/
def retryFrom {ρ : Type} (invoke : Provider → Nat → Except Err ρ) (p : Provider) :
    Nat → Nat → Nat → RetryOut ρ × Nat
  | 0, _, idx => (⟨none, none, [], 0⟩, idx)
  | rem + 1, attempt, idx =>
    match invoke p idx with
    | Except.ok r => (⟨some r, none, [], 1⟩, idx + 1)
    | Except.error e =>
      if e.isRateLimit then (⟨none, some e, [], 1⟩, idx + 1)
      else
        let rest := retryFrom invoke p rem (attempt + 1) (idx + 1)
        let sl := if 0 < rem then 2 ^ attempt :: rest.1.sleeps else rest.1.sleeps
        match rest.1.result with
        | some r => (⟨some r, none, sl, rest.1.attempts + 1⟩, rest.2)
        | none => (⟨none, some (rest.1.lastExc.getD e), sl, rest.1.attempts + 1⟩, rest.2)

/-- The `RecursionError` Python raises when the mutual-fallback recursion of
`call_llm` exceeds the interpreter's depth limit; the embedding raises it when
the fuel (modelling that limit) is exhausted. -/
def recursionErr : Err := ⟨false, "maximum recursion depth exceeded"⟩

/-- The `TypeError` raised by `raise last_exception` when `last_exception` is
still `None` (only reachable with `max_retries = 0`). -/
def noneRaiseErr : Err := ⟨false, "exceptions must derive from BaseException"⟩

/-- Shallow embedding of `LLMProviderHandler.call_llm` (`provider_handler.py`
lines 326-386). Arguments: fuel (the Python recursion-depth budget), the
primary provider, `max_retries`, and the invocation counter. After the retry
loop, if no attempt succeeded the code recurses on the other provider with
`max_retries=1` (line 382); if that recursive call raises, the original
primary exception `last_exception` is re-raised (line 386). The returned `Nat`
is the final invocation counter, so `(call_llm_model ...).2 - idx` is the
total number of adapter invocations performed. -/
def call_llm_model {ρ : Type} (invoke : Provider → Nat → Except Err ρ) :
    Nat → Provider → Nat → Nat → Except Err ρ × Nat
  | 0, _, _, idx => (Except.error recursionErr, idx)
  | fuel + 1, p, mr, idx =>
    let pr := retryFrom invoke p mr 0 idx
    match pr.1.result with
    | some r => (Except.ok r, pr.2)
    | none =>
      let fb := call_llm_model invoke fuel p.other 1 pr.2
      match fb.1 with
      | Except.ok r => (Except.ok r, fb.2)
      | Except.error _ =>
        match pr.1.lastExc with
        | some e => (Except.error e, fb.2)
        | none => (Except.error noneRaiseErr, fb.2)

/-- Backoff computation of `_handle_rate_limit` (`provider_handler.py` line 65):
`backoff_time = min(2 ** self.rate_limit_hits[provider][api_key], 30)`. -/
def backoff_delay (hits : Nat) : Nat := min (2 ^ hits) 30

/-- Shallow embedding of `LLMProviderHandler._handle_rate_limit`
(`provider_handler.py` lines 54-67). The per-provider per-key hit table
`self.rate_limit_hits` is a function (absent keys read as 0, matching the
initialise-to-0 branches); the call increments the credential's counter and
returns the updated table together with the `time.sleep` duration. -/
def handle_rate_limit (hits : Provider → String → Nat) (p : Provider) (key : String) :
    (Provider → String → Nat) × Nat :=
  let h := hits p key + 1
  (fun q k => if q = p ∧ k = key then h else hits q k, backoff_delay h)

/-- A Gemini `functionCall` part payload; `argsJson` carries the result of
`json.dumps(func_call["args"])` in serialized form. -/
structure GFuncCall where
  name : String
  argsJson : String
deriving DecidableEq, Repr

/-- One element of `candidate["content"]["parts"]`: it may carry a `text` key
and/or a `functionCall` key. -/
structure GPart where
  text : Option String := none
  functionCall : Option GFuncCall := none
deriving DecidableEq, Repr

/-- The `content` object of a Gemini candidate; `parts` is `none` when the
`parts` key is absent. -/
structure GContent where
  parts : Option (List GPart) := none
deriving DecidableEq, Repr

/-- One entry of the Gemini `candidates` array. -/
structure GCandidate where
  content : Option GContent := none
  finishReason : Option String := none
deriving DecidableEq, Repr

/-- The `promptFeedback` object; `blockReason` is `none` when the key is
absent. -/
structure GFeedback where
  blockReason : Option String := none
deriving DecidableEq, Repr

/-- A raw Gemini backend response as inspected by
`_convert_gemini_response_to_openai_format`. A missing `candidates` key and a
present-but-empty array behave identically in the source
(`"candidates" not in gemini_response or not gemini_response["candidates"]`),
so both are the empty list. `usageMetadata` carries the serialized usage
object when present. -/
structure GeminiResponse where
  candidates : List GCandidate := []
  promptFeedback : Option GFeedback := none
  usageMetadata : Option String := none
deriving DecidableEq, Repr

/-- An OpenAI-format function payload inside a tool call. -/
structure OAFunction where
  name : String
  arguments : String
deriving DecidableEq, Repr

/-- An OpenAI-format tool call produced by the Gemini response converter. -/
structure OAToolCall where
  id : String
  type : String
  function : OAFunction
deriving DecidableEq, Repr

/-- An OpenAI-format assistant message. The source only sets the `content`
(resp. `tool_calls`) key when the joined text (resp. collected tool calls) is
truthy, so those fields are `Option`s with `none` for an absent key. -/
structure OAMessage where
  role : String
  content : Option String := none
  tool_calls : Option (List OAToolCall) := none
deriving DecidableEq, Repr

/-- One choice of the canonical OpenAI-format result. -/
structure OAChoice where
  message : OAMessage
  finish_reason : String
deriving DecidableEq, Repr

/-- The canonical OpenAI-format result returned by provider adapters
(`choices` plus a serialized `usage` object). -/
structure OAResult where
  choices : List OAChoice
  usage : String
deriving DecidableEq, Repr

/-- Finish-reason translation of `_convert_gemini_response_to_openai_format`
(`provider_handler.py` lines 303-312): defaults to `stop`, maps `STOP`,
`MAX_TOKENS`, `SAFETY` and `TOOL_CALLS`; any other raw value is left at the
`stop` default. -/
def mapFinishReason (finishReason : Option String) : String :=
  match finishReason with
  | none => "stop"
  | some fr =>
    if fr = "STOP" then "stop"
    else if fr = "MAX_TOKENS" then "length"
    else if fr = "SAFETY" then "content_filter"
    else if fr = "TOOL_CALLS" then "tool_calls"
    else "stop"

/-- The degraded result built for a blocked prompt (`provider_handler.py`
lines 261-267): an assistant message whose `content` key is the empty string,
`finish_reason` of `content_filter`, and an empty usage object. -/
def degradedGeminiResult : OAResult :=
  ⟨[⟨⟨"assistant", some "", none⟩, "content_filter"⟩], "\x7b\x7d"⟩

/-- Shallow embedding of
`LLMProviderHandler._convert_gemini_response_to_openai_format`
(`provider_handler.py` lines 254-324). With no candidates, a blocked prompt
(a `promptFeedback.blockReason` key) yields `degradedGeminiResult`; otherwise
the `ValueError("No candidates in Gemini response")` of line 269 propagates
(the surrounding `except` on line 321 re-raises it). With candidates, the
first one is converted: text parts joined with a space, `functionCall` parts
turned into OpenAI tool calls with dummy ids, and the finish reason mapped. -/
def convert_gemini_response (r : GeminiResponse) : Except String OAResult :=
  match r.candidates with
  | [] =>
    match r.promptFeedback with
    | some fb =>
      match fb.blockReason with
      | some _ => Except.ok degradedGeminiResult
      | none => Except.error "No candidates in Gemini response"
    | none => Except.error "No candidates in Gemini response"
  | candidate :: _ =>
    let parts := match candidate.content with
      | some c => c.parts.getD []
      | none => []
    let content := String.intercalate " " (parts.filterMap (fun part => part.text))
    let toolCalls := parts.filterMap (fun part =>
      part.functionCall.map (fun fc =>
        OAToolCall.mk ("call_" ++ fc.name) "function" ⟨fc.name, fc.argsJson⟩))
    let message : OAMessage :=
      ⟨"assistant",
       if content ≠ "" then some content else none,
       if toolCalls ≠ [] then some toolCalls else none⟩
    Except.ok ⟨[⟨message, mapFinishReason candidate.finishReason⟩],
               r.usageMetadata.getD "\x7b\x7d"⟩

/-- An OpenRouter chat message as inspected by `_call_openrouter`; `content`
is the string content, with the empty string for an absent key (matching the
`msg.get('content', '')` read). -/
structure ORMessage where
  role : String
  content : String
deriving DecidableEq, Repr

/-- The `simple_request` predicate of `_call_openrouter` (`provider_handler.py`
lines 118-119): every user message's content, lowercased, must lack the
substring `tool`. -/
def simple_request (messages : List ORMessage) : Bool :=
  (messages.filter (fun m => m.role == "user")).all
    (fun m => m.role == "user" && !(strContains (lowerStr m.content) "tool"))

/-- The outgoing OpenRouter request payload restricted to the fields the
claims concern; `tools` and `tool_choice` are `none` when the keys are not
added. Tool declarations are carried opaquely as strings. -/
structure ORPayload where
  model : String
  messages : List ORMessage
  tools : Option (List String)
  tool_choice : Option String
deriving DecidableEq, Repr

/-- Payload construction of `_call_openrouter` (`provider_handler.py` lines
109-123): the `tools` and `tool_choice` keys are added only when the supplied
tools list is non-empty and the request is not a `simple_request`. -/
def openrouter_payload (model : String) (messages : List ORMessage) (tools : List String) :
    ORPayload :=
  if tools ≠ [] then
    if simple_request messages then ⟨model, messages, none, none⟩
    else ⟨model, messages, some tools, some "auto"⟩
  else ⟨model, messages, none, none⟩

/-- The static registry of function names handled by
`ManagerAgent._execute_tool_call` (`manager_agent.py` lines 302-432), in
source order. -/
def knownFunctions : List String :=
  ["web_search", "search_and_extract", "navigate_to", "extract_content",
   "read_file", "write_file", "append_file", "list_files", "create_directory",
   "execute_python_code", "install_package", "run_shell_command",
   "dispatch_sub_agent", "update_todo", "create_comprehensive_research_report",
   "http_request", "memory_remember", "memory_search", "read_table",
   "write_table", "aggregate", "ingest", "extract_with_patterns",
   "render_html_report", "vector_upsert", "vector_query",
   "slack_post_message", "github_create_issue", "github_comment_issue",
   "create_task_venv", "venv_install", "extract_with_schema",
   "extract_json_mode"]

/-- The `function` field of a model-issued tool call: a name and a JSON-string
arguments value. -/
structure ToolFunction where
  name : String
  arguments : String
deriving DecidableEq, Repr

/-- A model-issued tool call as consumed by `_execute_tool_call`. -/
structure ToolCallRec where
  id : Option String := none
  function : ToolFunction
deriving DecidableEq, Repr

/-- Shallow embedding of `ManagerAgent._execute_tool_call` (`manager_agent.py`
lines 295-439). `parseArgs` models `json.loads` over the arguments string and
`collab` models the matched collaborator invocation together with the
`json.dumps` serialization of its result; both report a raised exception as
`Except.error`. The whole body sits in a `try` whose handler converts any
exception into the string `Error executing <name>: <e>`; an unmatched name
falls through every `elif` to `return f"Unknown function: {function_name}"`. -/
def execute_tool_call {α : Type} (parseArgs : String → Except String α)
    (collab : String → α → Except String String) (tc : ToolCallRec) : String :=
  let body : Except String String := do
    let args ← parseArgs tc.function.arguments
    if knownFunctions.contains tc.function.name then
      collab tc.function.name args
    else
      pure ("Unknown function: " ++ tc.function.name)
  match body with
  | Except.ok s => s
  | Except.error e => "Error executing " ++ tc.function.name ++ ": " ++ e

/-- Task lifecycle states of `task_monitor.py` (`TaskStatus`). -/
inductive MTaskStatus
  | pending
  | in_progress
  | completed
  | failed
  | deviated
  | redirected
deriving DecidableEq, Repr

/-- The `details` dictionary of a logged activity, restricted to the keys
`_check_deviation` reads (`query` for searches, `url` for navigations);
`none` models an absent key, read back with `details.get(k, '')`. -/
structure ActDetails where
  query : Option String := none
  url : Option String := none
deriving DecidableEq, Repr

/-- A logged `Activity` of `task_monitor.py` (timestamps are abstract
naturals; the `duration` field is irrelevant to the claims and omitted). -/
structure MActivity where
  timestamp : Nat
  activity_type : String
  description : String
  details : ActDetails
  success : Bool
  deviation_score : Nat
deriving DecidableEq, Repr

/-- A `TaskCheckpoint` recorded by `_handle_deviation`. -/
structure MCheckpoint where
  timestamp : Nat
  expected_activity : String
  actual_activity : String
  deviation_detected : Bool
  feedback_message : String
  correction_applied : Bool
deriving DecidableEq, Repr

/-- The mutable state of a `TaskMonitor` (the fields of `__init__` touched by
the claims; the progress lists hold the logged query / url strings). -/
structure MonitorState where
  original_task : String
  current_status : MTaskStatus
  activities : List MActivity
  checkpoints : List MCheckpoint
  deviation_count : Nat
  last_activity_time : Nat
  search_queries_executed : List String
  pages_visited : List String
  content_extracted : List String
  expected_search_terms : List String
deriving DecidableEq, Repr

/-- A fresh monitor state as produced by `_create_new_task_file`
(`task_monitor.py` lines 129-140). -/
def initialMonitor : MonitorState :=
  ⟨"", MTaskStatus.pending, [], [], 0, 0, [], [], [], []⟩

/-- Shallow embedding of `TaskMonitor._check_deviation` (`task_monitor.py`
lines 242-270). Scores: an off-topic search query adds 0.5 (no expected term
occurs, lowercased, as a substring of the lowercased query), an empty query
adds a further 0.8; an off-topic navigation url adds 0.3; an error activity
adds 0.4; a gap over 300 seconds since `last_activity_time` adds 0.6; the sum
is clamped to 1. All of the source's float weights are multiples of 0.1 and
are only ever summed and compared against 0.7 and 1.0, so they are represented
exactly as integer tenths (5, 8, 3, 4, 6, threshold 7, clamp 10). -/
def check_deviation (st : MonitorState) (now : Nat) (a : MActivity) : Nat :=
  let base : Nat :=
    if a.activity_type = "search" then
      let query := lowerStr (a.details.query.getD "")
      (if st.expected_search_terms.any (fun term => strContains query (lowerStr term))
        then 0 else 5)
      + (if query = "" then 8 else 0)
    else if a.activity_type = "navigation" then
      let url := lowerStr (a.details.url.getD "")
      if st.expected_search_terms.any (fun term => strContains url (lowerStr term))
        then 0 else 3
    else if a.activity_type = "error" then 4
    else 0
  let withGap := base + (if 300 < now - st.last_activity_time then 6 else 0)
  min withGap 10

/-- Shallow embedding of `TaskMonitor._generate_feedback_message`
(`task_monitor.py` lines 289-302). -/
def generate_feedback_message (st : MonitorState) (a : MActivity) : String :=
  if a.activity_type = "search" then
    let query := a.details.query.getD ""
    if query = "" then
      "No search query detected. Please perform a search related to the assigned task."
    else
      "Search query '" ++ query ++ "' may not be relevant to the task: '" ++
        st.original_task ++ "'. Please focus on the main task."
  else if a.activity_type = "error" then
    "Error occurred: " ++ a.description ++
      ". Please retry the task or use a different approach."
  else
    "Activity '" ++ a.description ++
      "' may not be progressing the main task. Please focus on: " ++ st.original_task

/-- Shallow embedding of `TaskMonitor._handle_deviation` (`task_monitor.py`
lines 272-287): increments `deviation_count`, moves the status to `deviated`
and records a `TaskCheckpoint`. -/
def handle_deviation (st : MonitorState) (now : Nat) (a : MActivity) : MonitorState :=
  { st with
    deviation_count := st.deviation_count + 1
    current_status := MTaskStatus.deviated
    checkpoints := st.checkpoints ++
      [⟨now, "Task-related activity for: " ++ st.original_task,
        a.activity_type ++ ": " ++ a.description, true,
        generate_feedback_message st a, false⟩] }

/-- Shallow embedding of `TaskMonitor.log_activity` (`task_monitor.py` lines
210-240): appends the activity, refreshes `last_activity_time` (before the
deviation check, so the 5-minute gap term never fires from here), moves
`pending` to `in_progress`, stores the computed score on the activity, and
calls `_handle_deviation` when the score is strictly above 0.7 (7 tenths). -/
def log_activity (st : MonitorState) (now : Nat) (atype description : String)
    (details : ActDetails) (success : Bool) : MonitorState :=
  let stTimed := { st with
    last_activity_time := now
    current_status :=
      if st.current_status = MTaskStatus.pending then MTaskStatus.in_progress
      else st.current_status }
  let act0 : MActivity := ⟨now, atype, description, details, success, 0⟩
  let score := check_deviation stTimed now act0
  let act : MActivity := { act0 with deviation_score := score }
  let st2 := { stTimed with activities := stTimed.activities ++ [act] }
  if 7 < score then handle_deviation st2 now act else st2

/-- Shallow embedding of `TaskMonitor.should_redirect_task` (`task_monitor.py`
lines 366-380): redirect on three accumulated deviations, or when no search
query has been logged, or when no content has been extracted. -/
def should_redirect_task (st : MonitorState) : Bool :=
  if 3 ≤ st.deviation_count then true
  else if st.search_queries_executed = [] then true
  else if st.content_extracted = [] then true
  else false

/-- A tool call as handled inside the iterative loop of
`execute_task_iterative` (id plus the function name and arguments it forwards
to `_execute_tool_call` and the event bus). -/
structure LToolCall where
  id : Option String := none
  function_name : String := ""
  function_arguments : String := ""
deriving DecidableEq, Repr

/-- A conversation message of the manager's transcript. `content` is `none`
for an absent/null content key; `tool_calls` is the possibly-empty list read
by `message.get('tool_calls') or []`. -/
structure LMsg where
  role : String
  content : Option String := none
  tool_calls : List LToolCall := []
  tool_call_id : Option String := none
deriving DecidableEq, Repr

/-- One choice of a provider response as read by the loop; `message` is
`none` when the `message` key is absent or the empty dict (both falsy). -/
structure LChoice where
  message : Option LMsg := none
  finish_reason : Option String := none
deriving DecidableEq, Repr

/-- A provider response as read by the loop's OpenAI-format compatibility
shim (`manager_agent.py` lines 769-776): either `choices`, or top-level
`content` / `finish_reason` fallbacks. -/
structure LlmResp where
  choices : List LChoice := []
  content : Option String := none
  finish_reason : Option String := none
deriving DecidableEq, Repr

/-- The compatibility shim of `execute_task_iterative` (`manager_agent.py`
lines 769-779): with a non-empty `choices` the first choice's message and
finish reason are used, and a falsy message breaks out of the loop (`none`
here); without `choices` a synthetic assistant message around the top-level
`content` (defaulting to the empty string) is used, which is never falsy. -/
def extract_message (resp : LlmResp) : Option (LMsg × Option String) :=
  match resp.choices with
  | c :: _ =>
    match c.message with
    | none => none
    | some m => some (m, c.finish_reason)
  | [] => some (⟨"assistant", some (resp.content.getD ""), [], none⟩, resp.finish_reason)

/-- The final fallback return of `execute_task_iterative` (`manager_agent.py`
line 827): the last message's content, defaulting to `Task completed`. -/
def lastContent (msgs : List LMsg) : String :=
  match msgs.getLast? with
  | some m => m.content.getD "Task completed"
  | none => "Task completed"

/-- The reflection prompt appended before dispatching the critic
(`manager_agent.py` lines 808-811). -/
def reflectionPrompt : LMsg :=
  ⟨"user",
   some ("Critically review the current solution for correctness, completeness, " ++
     "potential risks, and missing steps. Return only actionable fixes or CONFIRM " ++
     "if acceptable."),
   [], none⟩

/-- The user message that feeds a non-CONFIRM critique back into the loop
(`manager_agent.py` line 824), with the critique truncated to 4000 chars. -/
def critiqueMsg (review : String) : LMsg :=
  ⟨"user", some ("Incorporate this critique and finalize: " ++ takeStr review 4000), [], none⟩

/-- The tool message appended for one executed tool call (`manager_agent.py`
lines 791-795). -/
def toolResultMsg (tc : LToolCall) (result : String) : LMsg :=
  ⟨"tool", some result, [], tc.id⟩

/-- The critic acceptance test of the reflection gate (`manager_agent.py`
line 820): `critic_review and critic_review.strip().upper().startswith("CONFIRM")`. -/
def confirmStart (review : String) : Bool :=
  (review != "") && startsWithStr (upperStr (trimStr review)) "CONFIRM"

/-- Shallow embedding of the `while step < max_steps` loop of
`ManagerAgent.execute_task_iterative` (`manager_agent.py` lines 749-827).
Oracles: `respond` is `llm_handler.call_llm` (receiving the step number and
the transcript; `Except.error` is a raised exception, routed to the outer
`except` which returns `Task failed: ...`), `execTool` is
`_execute_tool_call` (total, it always returns a string), `critic` is the
critic sub-agent dispatch over the candidate content, `cancelled` the
cooperative cancellation flag checked at the top of each turn. Arguments:
remaining steps (`max_steps - step`), the current step, the transcript and
the provider-call counter; it returns the result string and the number of
provider calls issued by the loop. -/
def iterLoop (respond : Nat → List LMsg → Except String LlmResp)
    (execTool : LToolCall → String) (critic : String → String)
    (cancelled : Nat → Bool) :
    Nat → Nat → List LMsg → Nat → String × Nat
  | 0, _, msgs, calls => (lastContent msgs, calls)
  | rem + 1, step, msgs, calls =>
    if cancelled (step + 1) then ("Task cancelled", calls)
    else
      match respond (step + 1) msgs with
      | Except.error e => ("Task failed: " ++ e, calls + 1)
      | Except.ok resp =>
        match extract_message resp with
        | none => (lastContent msgs, calls + 1)
        | some (m, finish) =>
          let msgs1 := msgs ++ [m]
          if m.tool_calls ≠ [] then
            iterLoop respond execTool critic cancelled rem (step + 1)
              (msgs1 ++ m.tool_calls.map (fun tc => toolResultMsg tc (execTool tc)))
              (calls + 1)
          else if finish = some "stop" ∨ (m.content.getD "") ≠ "" then
            let review := critic (m.content.getD "")
            if confirmStart review then
              (m.content.getD "Task completed", calls + 1)
            else
              iterLoop respond execTool critic cancelled rem (step + 1)
                ((msgs1 ++ [reflectionPrompt]) ++ [critiqueMsg review]) (calls + 1)
          else
            iterLoop respond execTool critic cancelled rem (step + 1) msgs1 (calls + 1)

/-- The research-routing heuristic `_should_route_to_research`
(`manager_agent.py` lines 832-842), translated term list for term list. -/
def should_route_to_research (task : String) : Bool :=
  if task = "" then false
  else
    let text := lowerStr task
    (["research", "find sources", "recent", "latest", "news", "articles",
      "citations", "summarize from web", "list", "compare",
      "gather information"].any (fun t => strContains text t))
    && (["ai", "ml", "machine learning", "llm", "technology", "market",
         "trend", "paper", "study"].any (fun t => strContains text t))

/-- The initial transcript of `execute_task_iterative` (`manager_agent.py`
lines 745-748). -/
def initMessages (sysPrompt task : String) : List LMsg :=
  [⟨"system", some sysPrompt, [], none⟩,
   ⟨"user", some ("Plan and execute the task end-to-end: " ++ task), [], none⟩]

/-- Shallow embedding of `ManagerAgent.execute_task_iterative`
(`manager_agent.py` lines 730-830). `research` is the oracle for
`execute_research_task` on the research-routed path: `Except.error` a raised
exception (absorbed by the outer `except` as `Task failed: ...`),
`Except.ok (some report)` a successful research dict (returned as a string),
`Except.ok none` an unsuccessful one (falling through to the iterative loop).
The second component of the result counts the loop's provider calls. -/
def execute_task_iterative (sysPrompt : String)
    (research : Except String (Option String))
    (respond : Nat → List LMsg → Except String LlmResp)
    (execTool : LToolCall → String) (critic : String → String)
    (cancelled : Nat → Bool) (task : String) (maxSteps : Nat) : String × Nat :=
  if should_route_to_research task then
    match research with
    | Except.error e => ("Task failed: " ++ e, 0)
    | Except.ok (some report) => (report, 0)
    | Except.ok none =>
      iterLoop respond execTool critic cancelled maxSteps 0 (initMessages sysPrompt task) 0
  else
    iterLoop respond execTool critic cancelled maxSteps 0 (initMessages sysPrompt task) 0

/-- Adapter stub for which every attempt on every provider raises an ordinary
(non-429) exception. -/
def alwaysFailStub : Provider → Nat → Except Err Unit :=
  fun _ _ => Except.error ⟨false, "connection error"⟩

/-- Adapter stub where the primary provider raises a distinct ordinary
exception on every attempt, so the last one is identifiable. -/
def primaryFailStub : Provider → Nat → Except Err Unit :=
  fun _ n => Except.error ⟨false, toString n⟩

/-- Adapter stub failing once with an ordinary exception and succeeding from
the second attempt on. -/
def mixedStub : Provider → Nat → Except Err Unit :=
  fun _ n => if n = 0 then Except.error ⟨false, "boom"⟩ else Except.ok ()


/-- Fresh monitor for a research task about quantum computing, with the
expected-term set already populated. -/
def offTopicMonitor : MonitorState :=
  { initialMonitor with
    original_task := "research quantum computing"
    expected_search_terms := ["quantum", "computing"] }


/-- Logging of one search activity whose query shares no token with the
quantum-computing expected terms. -/
def logOffTopicSearch (st : MonitorState) (now : Nat) : MonitorState :=
  log_activity st now "search" "Executed search: football scores"
    ⟨some "football scores", none⟩ true


/-- Three consecutive search-activity logs, as in the deviation-accumulation
scenario of the spec. -/
def logOff3 (st : MonitorState) (now1 now2 now3 : Nat)
    (q1 q2 q3 d1 d2 d3 : String) : MonitorState :=
  log_activity
    (log_activity (log_activity st now1 "search" d1 ⟨some q1, none⟩ true)
      now2 "search" d2 ⟨some q2, none⟩ true)
    now3 "search" d3 ⟨some q3, none⟩ true


/-- Provider stub that, at every turn, answers with an assistant message
carrying the given content, no tool calls, and `finish_reason = stop`. -/
def stopRespond (c : String) : Nat → List LMsg → Except String LlmResp :=
  fun _ _ => Except.ok ⟨[⟨some ⟨"assistant", some c, [], none⟩, some "stop"⟩], none, none⟩


/-- Critic stub returning a fixed review. -/
def constCritic (k : String) : String → String := fun _ => k


/-- Cancellation flag that is never set. -/
def noCancel : Nat → Bool := fun _ => false


/-- C9: recording consecutive rate-limit failures for the same credential
produces delays of `min(2^hits, 30)` seconds, non-decreasing in the hit count
and never above the 30-second cap. -/
theorem rate_limit_backoff_monotone (hits : Provider → String → Nat)
    (p : Provider) (key : String) :
    (handle_rate_limit hits p key).2 ≤
      (handle_rate_limit (handle_rate_limit hits p key).1 p key).2
    ∧ (handle_rate_limit hits p key).2 ≤ 30
    ∧ ∀ k1 k2 : Nat, k1 ≤ k2 → backoff_delay k1 ≤ backoff_delay k2 := by
  have mono : ∀ k1 k2 : Nat, k1 ≤ k2 → backoff_delay k1 ≤ backoff_delay k2 :=
    fun k1 k2 h => min_le_min (Nat.pow_le_pow_right (by omega) h) le_rfl
  refine ⟨?_, min_le_right _ _, mono⟩
  have e3 : (handle_rate_limit hits p key).1 p key = hits p key + 1 := by
    simp [handle_rate_limit]
  show backoff_delay (hits p key + 1) ≤
    backoff_delay ((handle_rate_limit hits p key).1 p key + 1)
  rw [e3]
  exact mono _ _ (by omega)

/-- C3 (code bug): with both providers failing every attempt with an ordinary
exception, a failing fallback invocation of `call_llm` triggers a further
fallback: each unit of recursion budget adds one more adapter invocation
(second conjunct), so with budget 5 and `max_retries = 3` the run issues 7
invocations instead of the `max_retries + 1 = 4` the bounded-depth claim
predicts (first conjunct). The recursion is bounded only by the interpreter's
recursion limit, not by the `max_retries=1` argument of line 382. -/
theorem fallback_recursion_not_depth_bounded :
    ((call_llm_model alwaysFailStub 5 Provider.openrouter 3 0).2 = 7 ∧ 3 + 1 < 7)
    ∧ ∀ (fuel idx : Nat) (p : Provider),
        (call_llm_model alwaysFailStub fuel p 1 idx).2 = idx + fuel := by
  constructor
  · exact ⟨rfl, by omega⟩
  · intro fuel
    induction fuel with
    | zero => intro idx p; rfl
    | succ f ih =>
      intro idx p
      have h2 := ih (idx + 1) p.other
      cases h1 : (call_llm_model alwaysFailStub f p.other 1 (idx + 1)).1 with
      | ok r => simp [call_llm_model, retryFrom, alwaysFailStub, h1, h2]; omega
      | error e => simp [call_llm_model, retryFrom, alwaysFailStub, h1, h2]; omega

/-- Reshaping of the sleep list accumulated by the retry loop: prepending the
current attempt's backoff to the shifted tail gives the range-map form. -/
theorem pow_sleeps_cons (attempt k : Nat) :
    2 ^ attempt :: (List.range k).map (fun j => 2 ^ (attempt + 1 + j)) =
      (List.range (k + 1)).map (fun j => 2 ^ (attempt + j)) := by
  rw [List.range_succ_eq_map, List.map_cons, List.map_map]
  refine congrArg₂ List.cons (by rw [Nat.add_zero]) ?_
  apply List.map_congr_left
  intro j _
  simp only [Function.comp_apply]
  congr 1
  omega

/-- Retry-loop characterisation, success case: if the first `k` attempts fail
with ordinary exceptions and attempt `k` (still within `max_retries`)
succeeds, the loop returns that response immediately, having slept
`2^0, ..., 2^(k-1)` and made exactly `k + 1` adapter invocations. -/
theorem retryFrom_ok_of_failures {ρ : Type} (invoke : Provider → Nat → Except Err ρ)
    (p : Provider) :
    ∀ (k : Nat) (errs : Nat → Err) (rem attempt idx : Nat), k < rem →
    (∀ j, j < k → invoke p (idx + j) = Except.error (errs j) ∧ (errs j).isRateLimit = false) →
    ∀ r, invoke p (idx + k) = Except.ok r →
    retryFrom invoke p rem attempt idx =
      (⟨some r, none, (List.range k).map (fun j => 2 ^ (attempt + j)), k + 1⟩, idx + (k + 1)) := by
  intro k
  induction k with
  | zero =>
    intro errs rem attempt idx hk hfail r hok
    obtain ⟨r0, rfl⟩ : ∃ r0, rem = r0 + 1 := ⟨rem - 1, by omega⟩
    rw [Nat.add_zero] at hok
    simp [retryFrom, hok]
  | succ k ih =>
    intro errs rem attempt idx hk hfail r hok
    obtain ⟨r0, rfl⟩ : ∃ r0, rem = r0 + 1 := ⟨rem - 1, by omega⟩
    have h0 := hfail 0 (by omega)
    rw [Nat.add_zero] at h0
    have hrest := ih (fun j => errs (j + 1)) r0 (attempt + 1) (idx + 1) (by omega)
      (fun j hj => by
        have hsh := hfail (j + 1) (by omega)
        rwa [show idx + (j + 1) = idx + 1 + j by omega] at hsh)
      r (by rwa [show idx + (k + 1) = idx + 1 + k by omega] at hok)
    simp only [retryFrom, h0.1]
    rw [if_neg (by simp [h0.2])]
    simp only [hrest, if_pos (show 0 < r0 by omega)]
    refine congrArg₂ Prod.mk ?_ (by omega)
    rw [pow_sleeps_cons]

/-- Retry-loop characterisation, rate-limit case: if the first `k` attempts
fail with ordinary exceptions and attempt `k` (still within `max_retries`)
raises a 429 exception, the loop stops at once with no further sleep,
leaving that exception as `last_exception`. -/
theorem retryFrom_429_of_failures {ρ : Type} (invoke : Provider → Nat → Except Err ρ)
    (p : Provider) :
    ∀ (k : Nat) (errs : Nat → Err) (rem attempt idx : Nat), k < rem →
    (∀ j, j < k → invoke p (idx + j) = Except.error (errs j) ∧ (errs j).isRateLimit = false) →
    ∀ e : Err, invoke p (idx + k) = Except.error e → e.isRateLimit = true →
    retryFrom invoke p rem attempt idx =
      (⟨none, some e, (List.range k).map (fun j => 2 ^ (attempt + j)), k + 1⟩, idx + (k + 1)) := by
  intro k
  induction k with
  | zero =>
    intro errs rem attempt idx hk hfail e he hrl
    obtain ⟨r0, rfl⟩ : ∃ r0, rem = r0 + 1 := ⟨rem - 1, by omega⟩
    rw [Nat.add_zero] at he
    simp [retryFrom, he, hrl]
  | succ k ih =>
    intro errs rem attempt idx hk hfail e he hrl
    obtain ⟨r0, rfl⟩ : ∃ r0, rem = r0 + 1 := ⟨rem - 1, by omega⟩
    have h0 := hfail 0 (by omega)
    rw [Nat.add_zero] at h0
    have hrest := ih (fun j => errs (j + 1)) r0 (attempt + 1) (idx + 1) (by omega)
      (fun j hj => by
        have hsh := hfail (j + 1) (by omega)
        rwa [show idx + (j + 1) = idx + 1 + j by omega] at hsh)
      e (by rwa [show idx + (k + 1) = idx + 1 + k by omega] at he) hrl
    simp only [retryFrom, h0.1]
    rw [if_neg (by simp [h0.2])]
    simp only [hrest, if_pos (show 0 < r0 by omega)]
    refine congrArg₂ Prod.mk ?_ (by omega)
    simp only [Option.getD_some]
    rw [pow_sleeps_cons]

/-- Retry-loop characterisation, backoff case: if attempts `0..k` all fail
with ordinary exceptions and attempt `k` is not the last one, the loop's
first `k + 1` sleeps are exactly `2^0, ..., 2^k` — in particular it sleeps
`2^k` seconds after the ordinary failure of attempt `k` before retrying. -/
theorem retryFrom_sleeps_prefix {ρ : Type} (invoke : Provider → Nat → Except Err ρ)
    (p : Provider) :
    ∀ (k : Nat) (errs : Nat → Err) (rem attempt idx : Nat), k + 1 < rem →
    (∀ j, j ≤ k → invoke p (idx + j) = Except.error (errs j) ∧ (errs j).isRateLimit = false) →
    ((retryFrom invoke p rem attempt idx).1.sleeps).take (k + 1) =
      (List.range (k + 1)).map (fun j => 2 ^ (attempt + j)) := by
  intro k
  induction k with
  | zero =>
    intro errs rem attempt idx hk hfail
    obtain ⟨r0, rfl⟩ : ∃ r0, rem = r0 + 1 := ⟨rem - 1, by omega⟩
    have h0 := hfail 0 (by omega)
    rw [Nat.add_zero] at h0
    simp only [retryFrom, h0.1]
    rw [if_neg (by simp [h0.2])]
    cases hres : (retryFrom invoke p r0 (attempt + 1) (idx + 1)).1.result with
    | none => simp [hres, if_pos (show 0 < r0 by omega), List.range_succ]
    | some r => simp [hres, if_pos (show 0 < r0 by omega), List.range_succ]
  | succ k ih =>
    intro errs rem attempt idx hk hfail
    obtain ⟨r0, rfl⟩ : ∃ r0, rem = r0 + 1 := ⟨rem - 1, by omega⟩
    have h0 := hfail 0 (by omega)
    rw [Nat.add_zero] at h0
    have hrest := ih (fun j => errs (j + 1)) r0 (attempt + 1) (idx + 1) (by omega)
      (fun j hj => by
        have hsh := hfail (j + 1) (by omega)
        rwa [show idx + (j + 1) = idx + 1 + j by omega] at hsh)
    simp only [retryFrom, h0.1]
    rw [if_neg (by simp [h0.2])]
    rw [← pow_sleeps_cons]
    cases hres : (retryFrom invoke p r0 (attempt + 1) (idx + 1)).1.result with
    | none =>
      simp only [hres, if_pos (show 0 < r0 by omega), List.take_succ_cons]
      rw [hrest]
    | some r =>
      simp only [hres, if_pos (show 0 < r0 by omega), List.take_succ_cons]
      rw [hrest]

/-- C4: the retry loop of `call_llm`, for any attempt index `k` preceded by
`k` ordinary failures: a successful adapter invocation returns immediately
(having slept `2^0..2^(k-1)` for the earlier failures only); a 429 exception
stops the provider's retries at once with no additional sleep, leaving the
loop result empty so fallback evaluation follows; any other exception at a
non-final attempt makes the loop sleep exactly `2^k` seconds next (its sleep
list begins `2^0, ..., 2^k`). -/
theorem retry_loop_attempt_policy {ρ : Type} (invoke : Provider → Nat → Except Err ρ)
    (p : Provider) (mr k : Nat) (errs : Nat → Err)
    (hfail : ∀ j, j < k → invoke p j = Except.error (errs j) ∧ (errs j).isRateLimit = false) :
    (∀ r, k < mr → invoke p k = Except.ok r →
      retryFrom invoke p mr 0 0 =
        (⟨some r, none, (List.range k).map (fun j => 2 ^ j), k + 1⟩, k + 1))
    ∧ (∀ e : Err, k < mr → invoke p k = Except.error e → e.isRateLimit = true →
      retryFrom invoke p mr 0 0 =
        (⟨none, some e, (List.range k).map (fun j => 2 ^ j), k + 1⟩, k + 1))
    ∧ (k + 1 < mr → invoke p k = Except.error (errs k) → (errs k).isRateLimit = false →
      ((retryFrom invoke p mr 0 0).1.sleeps).take (k + 1) =
        (List.range (k + 1)).map (fun j => 2 ^ j)) := by
  refine ⟨?_, ?_, ?_⟩
  · intro r hk hok
    have := retryFrom_ok_of_failures invoke p k errs mr 0 0 hk
      (fun j hj => by simpa using hfail j hj) r (by simpa using hok)
    simpa using this
  · intro e hk he hrl
    have := retryFrom_429_of_failures invoke p k errs mr 0 0 hk
      (fun j hj => by simpa using hfail j hj) e (by simpa using he) hrl
    simpa using this
  · intro hk he hrl
    have := retryFrom_sleeps_prefix invoke p k errs mr 0 0 hk
      (fun j hj => by
        rcases Nat.lt_or_ge j k with hlt | hge
        · simpa using hfail j hlt
        · have hjk : j = k := by omega
          subst hjk
          simpa using ⟨he, hrl⟩)
    simpa using this

/-- C4 witness: with one ordinary failure followed by a success and
`max_retries = 3`, the loop returns at attempt 1 after a single 1-second
sleep and two invocations. -/
theorem retry_loop_attempt_policy_w :
    retryFrom mixedStub Provider.openrouter 3 0 0 =
      (⟨some (), none, [1], 2⟩, 2) := by
  have h := (retry_loop_attempt_policy mixedStub Provider.openrouter 3 1
    (fun _ => ⟨false, "boom"⟩)
    (fun j hj => by
      have hj0 : j = 0 := by omega
      subst hj0
      exact ⟨rfl, rfl⟩)).1 () (by omega) rfl
  simpa using h

/-- C7: `_execute_tool_call` always returns a string and never raises. With
parsed arguments, a registered name returns the collaborator's serialized
result, while a name absent from the registry returns
`Unknown function: <name>`; an exception during argument parsing or during
the collaborator invocation is converted to a string prefixed
`Error executing <name>:`. -/
theorem tool_dispatch_total {α : Type} (parseArgs : String → Except String α)
    (collab : String → α → Except String String) (tc : ToolCallRec) :
    (∀ a, parseArgs tc.function.arguments = Except.ok a →
      knownFunctions.contains tc.function.name = false →
      execute_tool_call parseArgs collab tc = "Unknown function: " ++ tc.function.name)
    ∧ (∀ e, parseArgs tc.function.arguments = Except.error e →
      execute_tool_call parseArgs collab tc =
        "Error executing " ++ tc.function.name ++ ": " ++ e)
    ∧ (∀ a e, parseArgs tc.function.arguments = Except.ok a →
      knownFunctions.contains tc.function.name = true →
      collab tc.function.name a = Except.error e →
      execute_tool_call parseArgs collab tc =
        "Error executing " ++ tc.function.name ++ ": " ++ e)
    ∧ (∀ a s, parseArgs tc.function.arguments = Except.ok a →
      knownFunctions.contains tc.function.name = true →
      collab tc.function.name a = Except.ok s →
      execute_tool_call parseArgs collab tc = s) := by
  refine ⟨?_, ?_, ?_, ?_⟩
  · intro a hp hn
    have hn2 : tc.function.name ∉ knownFunctions := by simpa using hn
    simp [execute_tool_call, hp, hn2, bind, Except.bind, pure, Except.pure]
  · intro e hp
    simp [execute_tool_call, hp, bind, Except.bind]
  · intro a e hp hn hc
    have hn2 : tc.function.name ∈ knownFunctions := by simpa using hn
    simp [execute_tool_call, hp, hn2, hc, bind, Except.bind]
  · intro a s hp hn hc
    have hn2 : tc.function.name ∈ knownFunctions := by simpa using hn
    simp [execute_tool_call, hp, hn2, hc, bind, Except.bind]

/-- C7 witness: a tool call whose function name is not in the registry yields
the `Unknown function` string (with a parser that accepts the arguments and a
collaborator that would raise if it were reached). -/
theorem tool_dispatch_total_w :
    execute_tool_call (fun _ => Except.ok ())
      (fun _ _ => Except.error "collaborator crash")
      ⟨none, ⟨"frobnicate", "null"⟩⟩ = "Unknown function: frobnicate" :=
  (tool_dispatch_total (fun _ => Except.ok ())
    (fun _ _ => Except.error "collaborator crash")
    ⟨none, ⟨"frobnicate", "null"⟩⟩).1 () rfl (by decide)

/-- C10: for the OpenRouter provider, when every user message's content lacks
the substring `tool` (case-insensitively), the outgoing payload omits the
`tools` and `tool_choice` keys even though a non-empty tools list was
supplied. -/
theorem openrouter_tools_dropped (model : String) (messages : List ORMessage)
    (tools : List String)
    (h : ∀ m, m ∈ messages → m.role = "user" →
      strContains (lowerStr m.content) "tool" = false) :
    (openrouter_payload model messages tools).tools = none
    ∧ (openrouter_payload model messages tools).tool_choice = none := by
  have hs : simple_request messages = true := by
    unfold simple_request
    rw [List.all_eq_true]
    intro m hm
    rw [List.mem_filter] at hm
    have hrole : m.role = "user" := by simpa using hm.2
    simp [hrole, h m hm.1 hrole]
  unfold openrouter_payload
  by_cases ht : tools = []
  · simp [ht, hs]
  · simp [ht, hs]

/-- C10 witness: a single user message without the substring `tool` and a
non-empty tools list produce a payload with no `tools` key. -/
theorem openrouter_tools_dropped_w :
    (openrouter_payload "m" [⟨"user", "Hello there"⟩] ["decl"]).tools = none :=
  (openrouter_tools_dropped "m" [⟨"user", "Hello there"⟩] ["decl"]
    (by intro m hm hrole; fin_cases hm; decide)).1

/-- C8 counterexample: a backend response lacking candidates and carrying no
`promptFeedback.blockReason` makes the Gemini normalizer raise
`ValueError("No candidates in Gemini response")` instead of returning a
degraded result. -/
theorem gemini_missing_candidates_raises :
    convert_gemini_response ⟨[], none, none⟩ =
      Except.error "No candidates in Gemini response" := rfl

/-- C8 (amended): with no candidates, the normalizer returns the degraded
content-filter result exactly when a `promptFeedback.blockReason` is present;
otherwise the `ValueError` propagates to the caller. -/
theorem gemini_missing_candidates_policy (r : GeminiResponse)
    (hc : r.candidates = []) :
    (∀ fb reason, r.promptFeedback = some fb → fb.blockReason = some reason →
      convert_gemini_response r = Except.ok degradedGeminiResult)
    ∧ ((r.promptFeedback = none ∨
        ∃ fb, r.promptFeedback = some fb ∧ fb.blockReason = none) →
      convert_gemini_response r =
        Except.error "No candidates in Gemini response") := by
  constructor
  · intro fb reason hfb hbr
    simp [convert_gemini_response, hc, hfb, hbr]
  · intro hcase
    rcases hcase with hnone | ⟨fb, hfb, hbr⟩
    · simp [convert_gemini_response, hc, hnone]
    · simp [convert_gemini_response, hc, hfb, hbr]

/-- C8 witness: a candidate-less response blocked for safety yields the
degraded empty-content `content_filter` result. -/
theorem gemini_missing_candidates_policy_w :
    convert_gemini_response ⟨[], some ⟨some "SAFETY"⟩, none⟩ =
      Except.ok degradedGeminiResult :=
  (gemini_missing_candidates_policy ⟨[], some ⟨some "SAFETY"⟩, none⟩ rfl).1
    ⟨some "SAFETY"⟩ "SAFETY" rfl rfl

/-- Retry-loop characterisation, exhaustion case: when every attempt of the
loop fails with an ordinary exception, the loop ends with no result, with
`last_exception` holding the final attempt's exception, having slept after
every attempt but the last and having invoked the adapter `rem` times. -/
theorem retryFrom_all_fail {ρ : Type} (invoke : Provider → Nat → Except Err ρ)
    (p : Provider) :
    ∀ (rem : Nat) (errs : Nat → Err) (attempt idx : Nat), 0 < rem →
    (∀ j, j < rem → invoke p (idx + j) = Except.error (errs j) ∧ (errs j).isRateLimit = false) →
    retryFrom invoke p rem attempt idx =
      (⟨none, some (errs (rem - 1)),
        (List.range (rem - 1)).map (fun j => 2 ^ (attempt + j)), rem⟩, idx + rem) := by
  intro rem
  induction rem with
  | zero => intro errs attempt idx h0; omega
  | succ r ih =>
    intro errs attempt idx h0 hfail
    have h0' := hfail 0 (by omega)
    rw [Nat.add_zero] at h0'
    simp only [retryFrom, h0'.1]
    rw [if_neg (by simp [h0'.2])]
    cases r with
    | zero =>
      simp [retryFrom]
    | succ r1 =>
      have hrest := ih (fun j => errs (j + 1)) (attempt + 1) (idx + 1) (by omega)
        (fun j hj => by
          have hsh := hfail (j + 1) (by omega)
          rwa [show idx + (j + 1) = idx + 1 + j by omega] at hsh)
      simp only [hrest, if_pos (show 0 < r1 + 1 by omega)]
      refine congrArg₂ Prod.mk ?_ (by omega)
      simp only [Option.getD_some, Nat.add_sub_cancel]
      rw [pow_sleeps_cons]

/-- C2: when the primary provider fails all `max_retries` attempts with
ordinary exceptions and the subsequent fallback invocation also raises,
`call_llm` propagates the primary provider's last-attempt exception, not the
fallback's. -/
theorem fallback_raises_primary_exception {ρ : Type}
    (invoke : Provider → Nat → Except Err ρ) (fuel mr idx : Nat) (p : Provider)
    (errs : Nat → Err) (hmr : 0 < mr)
    (hfail : ∀ j, j < mr → invoke p (idx + j) = Except.error (errs j) ∧ (errs j).isRateLimit = false)
    (hfb : ∃ e2, (call_llm_model invoke fuel p.other 1 (idx + mr)).1 = Except.error e2) :
    (call_llm_model invoke (fuel + 1) p mr idx).1 = Except.error (errs (mr - 1)) := by
  have hret := retryFrom_all_fail invoke p mr errs 0 idx hmr hfail
  obtain ⟨e2, hfb⟩ := hfb
  cases hfb2 : call_llm_model invoke fuel p.other 1 (idx + mr) with
  | mk fb1 fb2 =>
    rw [hfb2] at hfb
    simp only at hfb
    subst hfb
    simp [call_llm_model, hret, hfb2]

/-- C2 witness: with `primaryFailStub`, `max_retries = 3` and recursion
budget 4, the surfaced exception is the primary provider's third-attempt
exception (invocation index 2), not any exception of the fallback chain. -/
theorem fallback_raises_primary_exception_w :
    (call_llm_model primaryFailStub 4 Provider.openrouter 3 0).1 =
      Except.error ⟨false, "2"⟩ :=
  fallback_raises_primary_exception primaryFailStub 3 3 0 Provider.openrouter
    (fun j => ⟨false, toString j⟩) (by omega)
    (by
      intro j hj
      interval_cases j
      · exact ⟨rfl, rfl⟩
      · exact ⟨rfl, rfl⟩
      · exact ⟨rfl, rfl⟩)
    ⟨⟨false, "3"⟩, rfl⟩

/-- Lowercasing a string yields the empty string only for the empty string. -/
theorem lowerStr_eq_empty_iff (q : String) : lowerStr q = "" ↔ q = "" := by
  simp only [String.ext_iff]
  show q.data.map Char.toLower = [] ↔ q.data = []
  exact List.map_eq_nil_iff

/-- One off-topic search (non-empty query sharing no expected term) scores
exactly 0.5 (5 tenths), which is not above the 0.7 threshold, so
`log_activity` appends the activity without touching `deviation_count`,
the checkpoints, the expected terms or the progress lists. -/
theorem log_offtopic_search (st : MonitorState) (now : Nat) (q d : String)
    (hq : q ≠ "")
    (hdisj : ∀ t ∈ st.expected_search_terms,
      strContains (lowerStr q) (lowerStr t) = false) :
    log_activity st now "search" d ⟨some q, none⟩ true =
      { st with
        last_activity_time := now
        current_status :=
          if st.current_status = MTaskStatus.pending then MTaskStatus.in_progress
          else st.current_status
        activities := st.activities ++ [⟨now, "search", d, ⟨some q, none⟩, true, 5⟩] } := by
  have hany : st.expected_search_terms.any
      (fun term => strContains (lowerStr q) (lowerStr term)) = false := by
    rw [List.any_eq_false]
    intro t ht
    simp [hdisj t ht]
  have hql : ¬ lowerStr q = "" := fun h => hq ((lowerStr_eq_empty_iff q).mp h)
  have hscore : check_deviation
      { st with
        last_activity_time := now
        current_status :=
          if st.current_status = MTaskStatus.pending then MTaskStatus.in_progress
          else st.current_status }
      now ⟨now, "search", d, ⟨some q, none⟩, true, 0⟩ = 5 := by
    simp [check_deviation, hany, hql]
  simp only [log_activity, hscore]
  norm_num

/-- C6 counterexample: three consecutive off-topic searches (each scoring
0.5, below the 0.7 threshold) leave `deviation_count` at 0, not 3;
`should_redirect_task` still returns true, but only because no search-query
or content-extraction progress was recorded. -/
theorem deviation_accumulation_cx :
    ((logOffTopicSearch (logOffTopicSearch (logOffTopicSearch offTopicMonitor 1) 2) 3).deviation_count
        = 0 ∧ (0 : Nat) ≠ 3)
    ∧ should_redirect_task
        (logOffTopicSearch (logOffTopicSearch (logOffTopicSearch offTopicMonitor 1) 2) 3) = true :=
  ⟨⟨rfl, by omega⟩, rfl⟩

/-- C6 (amended): for a monitor with a non-empty expected-term set, three
consecutive off-topic search activities (non-empty queries disjoint from the
expected terms) each score 0.5, which never exceeds the 0.7 threshold, so
`deviation_count` is left unchanged; `should_redirect_task` returns true
afterwards whenever no content extraction has been logged (lack of progress),
not through deviation accumulation. -/
theorem deviation_accumulation_amended (st : MonitorState)
    (now1 now2 now3 : Nat) (q1 q2 q3 d1 d2 d3 : String)
    (_hterms : st.expected_search_terms ≠ [])
    (hoff : ∀ q ∈ [q1, q2, q3], q ≠ "" ∧
      ∀ t ∈ st.expected_search_terms, strContains (lowerStr q) (lowerStr t) = false) :
    (logOff3 st now1 now2 now3 q1 q2 q3 d1 d2 d3).deviation_count = st.deviation_count
    ∧ (st.content_extracted = [] →
        should_redirect_task (logOff3 st now1 now2 now3 q1 q2 q3 d1 d2 d3) = true) := by
  have h1 := log_offtopic_search st now1 q1 d1 (hoff q1 (by simp)).1
    (hoff q1 (by simp)).2
  have h2 := log_offtopic_search (log_activity st now1 "search" d1 ⟨some q1, none⟩ true)
    now2 q2 d2 (hoff q2 (by simp)).1
    (by rw [h1]; exact (hoff q2 (by simp)).2)
  have h3 := log_offtopic_search
    (log_activity (log_activity st now1 "search" d1 ⟨some q1, none⟩ true)
      now2 "search" d2 ⟨some q2, none⟩ true)
    now3 q3 d3 (hoff q3 (by simp)).1
    (by rw [h2, h1]; exact (hoff q3 (by simp)).2)
  unfold logOff3
  rw [h3, h2, h1]
  refine ⟨rfl, ?_⟩
  intro hce
  simp [should_redirect_task, hce]

/-- C6 witness for the amended statement: the concrete fresh quantum-computing
monitor with three off-topic football searches keeps `deviation_count` at 0
while `should_redirect_task` reports true. -/
theorem deviation_accumulation_amended_w :
    (logOff3 offTopicMonitor 1 2 3 "football scores" "football scores" "football scores"
        "s1" "s2" "s3").deviation_count = offTopicMonitor.deviation_count
    ∧ (offTopicMonitor.content_extracted = [] →
        should_redirect_task
          (logOff3 offTopicMonitor 1 2 3 "football scores" "football scores"
            "football scores" "s1" "s2" "s3") = true) :=
  deviation_accumulation_amended offTopicMonitor 1 2 3
    "football scores" "football scores" "football scores" "s1" "s2" "s3"
    (by decide) (by decide)

/-- The provider-call counter of the iterative loop never exceeds the number
of remaining steps: each turn issues at most one `call_llm` invocation and
the loop body runs at most `rem` times. -/
theorem iterLoop_calls_le (respond : Nat → List LMsg → Except String LlmResp)
    (execTool : LToolCall → String) (critic : String → String)
    (cancelled : Nat → Bool) :
    ∀ (rem step : Nat) (msgs : List LMsg) (calls : Nat),
      (iterLoop respond execTool critic cancelled rem step msgs calls).2 ≤ calls + rem := by
  intro rem
  induction rem with
  | zero =>
    intro step msgs calls
    simp [iterLoop]
  | succ rem ih =>
    intro step msgs calls
    simp only [iterLoop]
    split
    · simp
    · split
      · simp
      · split
        · simp
        · split
          · exact le_trans (ih _ _ _) (by omega)
          · split
            · split
              · simp
              · exact le_trans (ih _ _ _) (by omega)
            · exact le_trans (ih _ _ _) (by omega)

/-- C1: `execute_task_iterative` with `max_steps = N` issues at most `N`
reasoning turns (loop provider calls) and always produces a result string,
for every task, every provider behaviour (including one that always emits
tool calls or always raises), every critic, every tool executor and every
cancellation pattern; when the bound is reached without a confirmed
completion it returns the transcript's last content as a best-effort result
(the total embedding mirrors the source's catch-all `except`, which converts
any raised exception into a `Task failed: ...` string). -/
theorem iterative_call_bound (sysPrompt : String)
    (research : Except String (Option String))
    (respond : Nat → List LMsg → Except String LlmResp)
    (execTool : LToolCall → String) (critic : String → String)
    (cancelled : Nat → Bool) (task : String) (maxSteps : Nat) :
    (execute_task_iterative sysPrompt research respond execTool critic cancelled
      task maxSteps).2 ≤ maxSteps := by
  by_cases hrt : should_route_to_research task = true
  · cases research with
    | error e => simp [execute_task_iterative, hrt]
    | ok o =>
      cases o with
      | none =>
        simpa [execute_task_iterative, hrt] using
          iterLoop_calls_le respond execTool critic cancelled maxSteps 0
            (initMessages sysPrompt task) 0
      | some report => simp [execute_task_iterative, hrt]
  · have hrt2 : should_route_to_research task = false := by
      cases h : should_route_to_research task
      · rfl
      · exact absurd h hrt
    simpa [execute_task_iterative, hrt2] using
      iterLoop_calls_le respond execTool critic cancelled maxSteps 0
        (initMessages sysPrompt task) 0

/-- With the stop-responding provider and a critic whose review passes the
CONFIRM gate, the loop returns the pre-critique assistant content on its
first turn. -/
theorem iterLoop_stop_confirm (c k : String) (execTool : LToolCall → String)
    (hk : confirmStart k = true) :
    ∀ (rem step : Nat) (msgs : List LMsg) (calls : Nat),
      iterLoop (stopRespond c) execTool (constCritic k) noCancel (rem + 1) step msgs calls
        = (c, calls + 1) := by
  intro rem step msgs calls
  simp [iterLoop, stopRespond, extract_message, noCancel, constCritic, hk]

/-- One turn of the loop under the stop-responding provider and a
non-CONFIRM critic: the turn reflects, appends the reflection prompt and the
critique, and continues with one more provider call consumed. -/
theorem iterLoop_stop_step (c k : String) (execTool : LToolCall → String)
    (hk : confirmStart k = false) (rem step : Nat) (msgs : List LMsg) (calls : Nat) :
    iterLoop (stopRespond c) execTool (constCritic k) noCancel (rem + 1) step msgs calls
      = iterLoop (stopRespond c) execTool (constCritic k) noCancel rem (step + 1)
          (((msgs ++ [⟨"assistant", some c, [], none⟩]) ++ [reflectionPrompt])
            ++ [critiqueMsg k]) (calls + 1) := by
  simp [iterLoop, stopRespond, extract_message, noCancel, constCritic, hk]

/-- With the stop-responding provider and a critic whose review fails the
CONFIRM gate, every remaining turn performs a reflection and continues, so
the loop consumes its entire step budget. -/
theorem iterLoop_stop_reflect_all (c k : String) (execTool : LToolCall → String)
    (hk : confirmStart k = false) :
    ∀ (rem step : Nat) (msgs : List LMsg) (calls : Nat),
      (iterLoop (stopRespond c) execTool (constCritic k) noCancel (rem + 1) step msgs calls).2
        = calls + (rem + 1) := by
  intro rem
  induction rem with
  | zero =>
    intro step msgs calls
    rw [iterLoop_stop_step c k execTool hk]
    simp [iterLoop]
  | succ rem ih =>
    intro step msgs calls
    rw [iterLoop_stop_step c k execTool hk]
    rw [ih]
    omega

/-- C5 (amended): in the reflection step (a turn with no tool calls and
`finish_reason = stop`), a critic review that starts — after stripping
whitespace, case-insensitively — with CONFIRM makes the loop return the
pre-critique assistant content after that single turn; a review that does not
pass the gate is appended as a new user message and, provided the step bound
has not yet been reached, the loop performs at least one more turn
(consuming its whole budget under this stub, so with two or more steps the
non-CONFIRM run makes at least two provider calls). -/
theorem reflection_gate (sysPrompt task c k : String)
    (research : Except String (Option String)) (execTool : LToolCall → String)
    (maxSteps : Nat) (hroute : should_route_to_research task = false)
    (hms : 1 ≤ maxSteps) :
    (confirmStart k = true →
      execute_task_iterative sysPrompt research (stopRespond c) execTool
        (constCritic k) noCancel task maxSteps = (c, 1))
    ∧ (confirmStart k = false →
      (execute_task_iterative sysPrompt research (stopRespond c) execTool
        (constCritic k) noCancel task maxSteps).2 = maxSteps) := by
  obtain ⟨m0, rfl⟩ : ∃ m0, maxSteps = m0 + 1 := ⟨maxSteps - 1, by omega⟩
  constructor
  · intro hk
    simp only [execute_task_iterative, hroute, Bool.false_eq_true, if_false]
    exact iterLoop_stop_confirm c k execTool hk m0 0 (initMessages sysPrompt task) 0
  · intro hk
    simp only [execute_task_iterative, hroute, Bool.false_eq_true, if_false]
    rw [iterLoop_stop_reflect_all c k execTool hk m0 0 (initMessages sysPrompt task) 0]
    omega

/-- C5 counterexample: with `max_steps = 1`, a stop-responding provider and
the non-CONFIRM critic review `Fix the math`, the critique is appended but
the loop performs no further turn: the run ends after exactly one provider
call, returning the critique message's content as the last transcript entry. -/
theorem reflection_gate_cx :
    confirmStart "Fix the math" = false ∧
    execute_task_iterative "" (Except.ok none) (stopRespond "42") (fun _ => "")
      (constCritic "Fix the math") noCancel "solve the equation" 1 =
      ("Incorporate this critique and finalize: Fix the math", 1) :=
  ⟨rfl, rfl⟩

/-- C5 witness: with a critic stub answering `CONFIRM: looks good`, the loop
terminates at that turn with the pre-critique content after one provider
call. -/
theorem reflection_gate_w :
    execute_task_iterative "" (Except.ok none) (stopRespond "42") (fun _ => "")
      (constCritic "CONFIRM: looks good") noCancel "solve the equation" 1 = ("42", 1) :=
  (reflection_gate "" "solve the equation" "42" "CONFIRM: looks good"
    (Except.ok none) (fun _ => "") 1 rfl (by omega)).1 rfl

/-- C9 witness: concrete consecutive failures for one OpenRouter key yield
non-decreasing capped delays, and the monotonicity conjunct instantiated at
3 ≤ 5 gives a concrete delay comparison. -/
theorem rate_limit_backoff_monotone_w :
    ((handle_rate_limit (fun _ _ => 0) Provider.openrouter "key").2 ≤
      (handle_rate_limit (handle_rate_limit (fun _ _ => 0) Provider.openrouter "key").1
        Provider.openrouter "key").2)
    ∧ backoff_delay 3 ≤ backoff_delay 5 :=
  ⟨(rate_limit_backoff_monotone (fun _ _ => 0) Provider.openrouter "key").1,
   (rate_limit_backoff_monotone (fun _ _ => 0) Provider.openrouter "key").2.2 3 5
     (by omega)⟩
